import Mathlib

/-!
Shallow embedding of the TrueNumber admin backend:
the User model (src/unnamed/part_000, a mongoose schema with a pre-save
hashing hook and a comparePassword method) and the five admin handlers
(src/src/controlleurs/admin.controlleur.ts).

Stores are modelled as lists of documents; each handler is a pure function
from its request data and the store contents to a result together with the
store contents after the operation.
-/

namespace TrueNumber

/-- Model of the external bcryptjs hash (`bcrypt.hash(plain, cost)`).
The spec describes it as a one-way salted hash whose compare function
succeeds iff the candidate hashes to the stored value, so it is modelled
as a tagged injective function: the `$2b$cost$` tag keeps every hash
distinct from every plaintext, and injectivity stands in for
collision-freeness. -/
def bcryptHash (cost : Nat) (plain : String) : String :=
  "$2b$" ++ toString cost ++ "$" ++ plain

/-- Model of `bcrypt.compare(candidate, stored)`: true iff the candidate,
hashed with the same algorithm, matches the stored hash. -/
def bcryptCompare (candidate stored : String) : Bool :=
  bcryptHash 12 candidate == stored

/-- A persisted User document (mongoose schema `UserSchema`).
`password` holds whatever string is currently stored in that field
(the hash after a normal save). -/
structure User where
  id : String
  firstName : String
  lastName : String
  email : String
  phone : String
  password : String
  role : String
  points : Int
  bio : Option String
  createdAt : Nat
deriving Repr, DecidableEq

/-- The pre-save hook on UserSchema: if the password path is modified,
replace it by its bcrypt hash with cost factor 12; otherwise leave the
document untouched. `passwordModified` models the isModified check on the
password path. -/
def preSave (u : User) (passwordModified : Bool) : User :=
  if passwordModified then { u with password := bcryptHash 12 u.password } else u

/-- The comparePassword method installed on UserSchema. -/
def comparePassword (u : User) (candidate : String) : Bool :=
  bcryptCompare candidate u.password

/-- Serialization of a document (toObject): a list of (field name, value)
pairs, password included. -/
def userToObject (u : User) : List (String × String) :=
  [("_id", u.id), ("firstName", u.firstName), ("lastName", u.lastName),
   ("email", u.email), ("phone", u.phone), ("password", u.password),
   ("role", u.role), ("points", toString u.points),
   ("bio", (u.bio).getD ""), ("createdAt", toString u.createdAt)]

/-- Removing the password field from a serialized document: this models
both the password-excluding query projections and the delete statement on
the serialized object, which all exclude exactly that key. -/
def withoutPassword (fields : List (String × String)) : List (String × String) :=
  fields.filter (fun kv => kv.1 != "password")

/-- JS string falsiness for an optional body field: `undefined` and the
empty string are falsy. -/
def isBlank : Option String → Bool
  | none => true
  | some s => s == ""

/-- JS truthiness of an optional string field (`if (updateData.password)`). -/
def truthy : Option String → Bool
  | none => false
  | some s => s != ""

/-- A Game document as read by `getAllGames` (external, read-only entity). -/
structure Game where
  id : String
  userId : Option String
  number : Int
  result : String
  pointsChange : Int
  balanceAfter : Int
  createdAt : Nat
deriving Repr, DecidableEq

/-- The object produced by populating the userId reference with the
firstName and lastName fields. -/
structure PopulatedUser where
  id : String
  firstName : String
  lastName : String
deriving Repr, DecidableEq

/-- One element of the `formattedGames` array built in `getAllGames`. -/
structure FormattedGame where
  id : String
  user : Option PopulatedUser
  number : Int
  result : String
  pointsChange : Int
  newBalance : Int
  createdAt : Nat
deriving Repr, DecidableEq

/-- Population of the userId reference on one game: `none` when the
reference is null, and also when the referenced user no longer exists. -/
def populateUser (users : List User) : Option String → Option PopulatedUser
  | none => none
  | some uid =>
    match users.find? (fun u => u.id == uid) with
    | none => none
    | some u => some ⟨u.id, u.firstName, u.lastName⟩

/-- The per-game reshaping inside `getAllGames` (`games.map(game => ...)`),
including the `game.userId ? {...} : null` branch. -/
def formatGame (users : List User) (g : Game) : FormattedGame :=
  { id := g.id
    user := populateUser users g.userId
    number := g.number
    result := g.result
    pointsChange := g.pointsChange
    newBalance := g.balanceAfter
    createdAt := g.createdAt }

/-- Decimal digit-run parsing: the value of the maximal leading run of
base-10 digits, `none` when that run is empty. -/
def parseDecDigits (cs : List Char) : Option Nat :=
  let ds := cs.takeWhile Char.isDigit
  if ds.isEmpty then none
  else some (ds.foldl (fun a c => a * 10 + (c.toNat - 48)) 0)

/-- Hexadecimal digit test for the JS parseInt hex notation. -/
def isHexDigitJS (c : Char) : Bool :=
  c.isDigit || (97 ≤ c.toNat && c.toNat ≤ 102) || (65 ≤ c.toNat && c.toNat ≤ 70)

/-- Value of one hexadecimal digit. -/
def hexVal (c : Char) : Nat :=
  if c.isDigit then c.toNat - 48
  else if 97 ≤ c.toNat then c.toNat - 87
  else c.toNat - 55

/-- Hexadecimal digit-run parsing after a 0x or 0X marker: `none` when no
hex digit follows the marker. -/
def parseHexDigits (cs : List Char) : Option Nat :=
  let ds := cs.takeWhile isHexDigitJS
  if ds.isEmpty then none
  else some (ds.foldl (fun a c => a * 16 + hexVal c) 0)

/-- JS `parseInt` on a string with no radix argument: skip leading
whitespace, optional sign, then either a 0x/0X-marked hexadecimal digit
run or a decimal digit run; `none` models `NaN`. -/
def parseIntJS (s : String) : Option Int :=
  let cs := s.toList.dropWhile
    (fun c => c == ' ' || c == '\t' || c == '\n' || c == '\r')
  let signAndRest : Int × List Char :=
    match cs with
    | '-' :: rest => (-1, rest)
    | '+' :: rest => (1, rest)
    | _ => (1, cs)
  let mag : Option Nat :=
    match signAndRest.2 with
    | '0' :: c :: rest =>
      if c == 'x' || c == 'X' then parseHexDigits rest
      else parseDecDigits signAndRest.2
    | _ => parseDecDigits signAndRest.2
  mag.map (fun n => signAndRest.1 * n)

/-- Parse-or-default for a query parameter: the default applies when the
parameter is absent, non-numeric (NaN), or parses to the falsy value 0. -/
def parseIntOr (q : Option String) (d : Int) : Int :=
  match q.bind parseIntJS with
  | none => d
  | some n => if n = 0 then d else n

/-- Descending order on creation timestamps, the `sort({ createdAt: -1 })`
comparison. -/
def gameDescOrder (a b : Game) : Prop := b.createdAt ≤ a.createdAt

instance : DecidableRel gameDescOrder := fun a b =>
  inferInstanceAs (Decidable (b.createdAt ≤ a.createdAt))

instance : IsTotal Game gameDescOrder :=
  ⟨fun a b => Nat.le_total b.createdAt a.createdAt⟩

instance : IsTrans Game gameDescOrder :=
  ⟨fun _ _ _ h1 h2 => Nat.le_trans h2 h1⟩

/-- The store applying `sort({ createdAt: -1 })` to the games collection. -/
def sortGamesDesc (gs : List Game) : List Game :=
  gs.insertionSort gameDescOrder

/-- Pagination metadata returned by `getAllGames`. -/
structure Pagination where
  total : Int
  page : Int
  pages : Int
  limit : Int
deriving Repr, DecidableEq

/-- The model of Math.ceil of the quotient: the ceiling of the exact
rational quotient, as JS computes it by real division followed by
Math.ceil (also at negative divisors). -/
def ceilDiv (a b : Int) : Int := ⌈(a : ℚ) / (b : ℚ)⌉

/-- The success payload of `getAllGames`. -/
structure GamesData where
  games : List FormattedGame
  pagination : Pagination
deriving Repr, DecidableEq

/-- Outcome of `getAllGames`: the 200 payload, or the 500 catch branch
when a store query fails. -/
inductive GamesResult where
  | serverError
  | ok (data : GamesData)
deriving Repr, DecidableEq

/-- Handler `getAllGames`: parse page/limit with defaults, compute
`skip = (page - 1) * limit`, fetch the games sorted by `createdAt`
descending with skip/limit and user population, count the total, and
build the formatted payload. The store rejects a negative skip, which
surfaces through the catch branch as a 500; a negative limit is treated
by the store as a single batch of up to |limit| documents. -/
def getAllGames (pageQ limitQ : Option String) (games : List Game)
    (users : List User) : GamesResult :=
  let page := parseIntOr pageQ 1
  let limit := parseIntOr limitQ 10
  let skip := (page - 1) * limit
  if skip < 0 then .serverError
  else
    let pageGames := ((sortGamesDesc games).drop skip.toNat).take limit.natAbs
    .ok { games := pageGames.map (formatGame users)
          pagination :=
            { total := games.length
              page := page
              pages := ceilDiv games.length limit
              limit := limit } }

/-- Handler `getAllUsers`: `User.find({}, { password: 0 })`, i.e. every
user with the password field excluded by the projection. -/
def getAllUsers (store : List User) : List (List (String × String)) :=
  store.map (fun u => withoutPassword (userToObject u))

/-- The request body destructured in `createUser`; every field may be
absent. -/
structure CreateBody where
  firstName : Option String
  lastName : Option String
  email : Option String
  phone : Option String
  password : Option String
  role : Option String
deriving Repr, DecidableEq

/-- Outcome of `createUser`: the two client-error cases, the 201 success,
or the 500 catch branch entered when the save itself throws (in
particular on save-time schema validation failure). -/
inductive CreateResult where
  | validationError
  | conflictError
  | serverError
  | created (u : User)
deriving Repr, DecidableEq

/-- HTTP status code of a `createUser` outcome. -/
def CreateResult.statusCode : CreateResult → Nat
  | .validationError => 400
  | .conflictError => 400
  | .serverError => 500
  | .created _ => 201

/-- The guard `!firstName || !lastName || !email || !phone || !password`. -/
def missingRequired (b : CreateBody) : Bool :=
  isBlank b.firstName || isBlank b.lastName || isBlank b.email
    || isBlank b.phone || isBlank b.password

/-- The role values accepted by the schema enumeration on the role path. -/
def validRole (r : String) : Bool := r == "user" || r == "admin"

/-- The document built by `createUser` before the save runs: the body
fields, role defaulting to user when falsy, points 0, bio unset, and the
creation-time default. `newId` and `now` stand for the system-generated
id and the `Date.now` default. -/
def createDoc (b : CreateBody) (newId : String) (now : Nat) : User :=
  { id := newId
    firstName := (b.firstName).getD ""
    lastName := (b.lastName).getD ""
    email := (b.email).getD ""
    phone := (b.phone).getD ""
    password := (b.password).getD ""
    role := if truthy b.role then (b.role).getD "" else "user"
    points := 0
    bio := none
    createdAt := now }

/-- Handler `createUser`: validate required fields, reject a duplicate
email, otherwise save the built document. The save runs schema
validation — a role outside the enumeration makes the save throw, which
the handler catches as a 500 with nothing persisted — and then the
pre-save hook on the fresh, hence modified, password path. The other
schema validations cannot fire here: the required fields were already
checked non-empty and the email duplicate was already rejected. -/
def createUser (b : CreateBody) (store : List User) (newId : String)
    (now : Nat) : CreateResult × List User :=
  if missingRequired b then
    (.validationError, store)
  else if store.any (fun u => u.email == (b.email).getD "") then
    (.conflictError, store)
  else
    let doc := createDoc b newId now
    if validRole doc.role then
      (.created (preSave doc true), store ++ [preSave doc true])
    else
      (.serverError, store)

/-- The response payload of a successful `createUser`:
`user.toObject()` followed by `delete userData.password`. -/
def createUserPayload (u : User) : List (String × String) :=
  withoutPassword (userToObject u)

/-- The request body of `updateUser`: any subset of the schema fields may
be present (mongoose strict mode drops non-schema keys, so only schema
paths can take effect). -/
structure UpdateBody where
  firstName : Option String
  lastName : Option String
  email : Option String
  phone : Option String
  password : Option String
  role : Option String
  points : Option Int
  bio : Option String
  createdAt : Option Nat
deriving Repr, DecidableEq

/-- The body with every field absent. -/
def UpdateBody.empty : UpdateBody :=
  ⟨none, none, none, none, none, none, none, none, none⟩

/-- The password-stripping step of updateUser: the password key is removed
only when its value is truthy. -/
def stripPassword (b : UpdateBody) : UpdateBody :=
  if truthy b.password then { b with password := none } else b

/-- The `$set` semantics of `findByIdAndUpdate`: every present field of the
body overwrites the stored field; no save hook runs on this path. -/
def applySet (b : UpdateBody) (u : User) : User :=
  { u with
    firstName := b.firstName.getD u.firstName
    lastName := b.lastName.getD u.lastName
    email := b.email.getD u.email
    phone := b.phone.getD u.phone
    password := b.password.getD u.password
    role := b.role.getD u.role
    points := b.points.getD u.points
    bio := match b.bio with | none => u.bio | some s => some s
    createdAt := b.createdAt.getD u.createdAt }

/-- Outcome of `updateUser`. -/
inductive UpdateResult where
  | notFound
  | updated (u : User)
deriving Repr, DecidableEq

/-- HTTP status code of an `updateUser` outcome. -/
def UpdateResult.statusCode : UpdateResult → Nat
  | .notFound => 404
  | .updated _ => 200

/-- Handler `updateUser`: strip a truthy password field from the body,
then update the document by id with the password field deselected in the
returned record: 404 when the id does not resolve, otherwise the updated
document. -/
def updateUser (id : String) (b : UpdateBody) (store : List User) :
    UpdateResult × List User :=
  let data := stripPassword b
  match store.find? (fun u => u.id == id) with
  | none => (.notFound, store)
  | some u =>
    let u2 := applySet data u
    (.updated u2, store.map (fun v => if v.id == id then u2 else v))

/-- The response payload of a successful `updateUser` (the document was
fetched with the password field deselected). -/
def updateUserPayload (u : User) : List (String × String) :=
  withoutPassword (userToObject u)

/-- The acting principal attached to the request by the upstream auth
middleware (`req.user`), when present. -/
structure AuthUser where
  id : String
  role : String
deriving Repr, DecidableEq

/-- Outcome of `deleteUser`. -/
inductive DeleteResult where
  | selfDeleteForbidden
  | notFound
  | deleted
deriving Repr, DecidableEq

/-- HTTP status code of a `deleteUser` outcome. -/
def DeleteResult.statusCode : DeleteResult → Nat
  | .selfDeleteForbidden => 400
  | .notFound => 404
  | .deleted => 200

/-- The self-delete guard `req.user?._id.toString() === id`: false when
`req.user` is undefined (optional chaining yields undefined). -/
def isSelfDelete (authUser : Option AuthUser) (id : String) : Bool :=
  match authUser with
  | some au => au.id == id
  | none => false

/-- Handler `deleteUser`: reject a self-delete with 400 before touching the
store; otherwise `findByIdAndDelete(id)`: 404 when the id does not
resolve, 200 with the document removed otherwise. -/
def deleteUser (authUser : Option AuthUser) (id : String)
    (store : List User) : DeleteResult × List User :=
  if isSelfDelete authUser id then
    (.selfDeleteForbidden, store)
  else
    match store.find? (fun u => u.id == id) with
    | none => (.notFound, store)
    | some _ => (.deleted, store.filter (fun u => u.id != id))

/-! ## Helper lemmas -/

theorem bcryptHash_twelve (p : String) : bcryptHash 12 p = "$2b$12$" ++ p := rfl

theorem bcryptHash_ne_plain (p : String) : bcryptHash 12 p ≠ p := by
  intro h
  have hlen := congrArg String.length h
  rw [bcryptHash_twelve, String.length_append] at hlen
  have h7 : ("$2b$12$" : String).length = 7 := rfl
  omega

theorem bcryptHash_inj {p q : String} (h : bcryptHash 12 p = bcryptHash 12 q) :
    p = q := by
  rw [bcryptHash_twelve, bcryptHash_twelve] at h
  have hdata := congrArg String.data h
  simp only [String.data_append] at hdata
  exact String.ext (List.append_cancel_left hdata)

theorem createUser_eq (b : CreateBody) (store : List User) (newId : String)
    (now : Nat) :
    createUser b store newId now =
      if missingRequired b then (.validationError, store)
      else if store.any (fun u => u.email == (b.email).getD "") then
        (.conflictError, store)
      else if validRole (createDoc b newId now).role then
        (.created (preSave (createDoc b newId now) true),
          store ++ [preSave (createDoc b newId now) true])
      else (.serverError, store) := rfl

theorem createUser_created_iff (b : CreateBody) (store : List User)
    (newId : String) (now : Nat) (u : User) (s2 : List User) :
    createUser b store newId now = (.created u, s2) ↔
      missingRequired b = false ∧
      store.any (fun v => v.email == (b.email).getD "") = false ∧
      validRole (createDoc b newId now).role = true ∧
      u = preSave (createDoc b newId now) true ∧ s2 = store ++ [u] := by
  rw [createUser_eq]
  by_cases hm : missingRequired b
  · simp [hm]
  · by_cases hd : store.any (fun v => v.email == (b.email).getD "")
    · simp [hm, hd]
    · by_cases hr : validRole (createDoc b newId now).role
      · have hm2 : missingRequired b = false := by simpa using hm
        have hd2 : store.any (fun v => v.email == (b.email).getD "") = false := by
          simpa using hd
        rw [if_neg hm, if_neg hd, if_pos hr, Prod.mk.injEq]
        constructor
        · rintro ⟨h1, h2⟩
          cases h1
          exact ⟨hm2, hd2, hr, rfl, h2.symm⟩
        · rintro ⟨-, -, -, hu, hs⟩
          subst hu
          subst hs
          exact ⟨rfl, rfl⟩
      · simp [hm, hd, hr]

theorem ceilDiv_bounds (t : Int) {d : Int} (hd : 0 < d) :
    d * (ceilDiv t d - 1) < t ∧ t ≤ d * ceilDiv t d := by
  have hdq : (0 : ℚ) < (d : ℚ) := by exact_mod_cast hd
  have hle : ((t : ℚ) / (d : ℚ)) ≤ ((⌈(t : ℚ) / (d : ℚ)⌉ : Int) : ℚ) :=
    Int.le_ceil _
  have hlt : (((⌈(t : ℚ) / (d : ℚ)⌉ : Int) : ℚ)) < (t : ℚ) / (d : ℚ) + 1 :=
    Int.ceil_lt_add_one _
  have h1 : (t : ℚ) ≤ ((⌈(t : ℚ) / (d : ℚ)⌉ : Int) : ℚ) * (d : ℚ) :=
    (div_le_iff₀ hdq).mp hle
  have h2 : (((⌈(t : ℚ) / (d : ℚ)⌉ : Int) : ℚ) - 1) * (d : ℚ) < (t : ℚ) :=
    (lt_div_iff₀ hdq).mp (by linarith)
  constructor
  · unfold ceilDiv
    qify
    linarith
  · unfold ceilDiv
    qify
    linarith

theorem ceilDiv_zero_left (b : Int) : ceilDiv 0 b = 0 := by
  simp [ceilDiv]

theorem sortGamesDesc_nil : sortGamesDesc [] = [] := rfl

theorem getAllGames_eq (pageQ limitQ : Option String) (games : List Game)
    (users : List User) :
    getAllGames pageQ limitQ games users =
      if (parseIntOr pageQ 1 - 1) * parseIntOr limitQ 10 < 0 then .serverError
      else .ok
        { games := (((sortGamesDesc games).drop
              ((parseIntOr pageQ 1 - 1) * parseIntOr limitQ 10).toNat).take
                (parseIntOr limitQ 10).natAbs).map (formatGame users)
          pagination :=
            { total := games.length
              page := parseIntOr pageQ 1
              pages := ceilDiv games.length (parseIntOr limitQ 10)
              limit := parseIntOr limitQ 10 } } := rfl

theorem isSelfDelete_iff (a : Option AuthUser) (id : String) :
    isSelfDelete a id = true ↔ ∃ au, a = some au ∧ au.id = id := by
  cases a with
  | none => simp [isSelfDelete]
  | some au => simp [isSelfDelete]

theorem deleteUser_eq (a : Option AuthUser) (id : String) (store : List User) :
    deleteUser a id store =
      if isSelfDelete a id then (.selfDeleteForbidden, store)
      else match store.find? (fun u => u.id == id) with
        | none => (.notFound, store)
        | some _ => (.deleted, store.filter (fun u => u.id != id)) := rfl

theorem stripPassword_createdAt (b : UpdateBody) :
    (stripPassword b).createdAt = b.createdAt := by
  unfold stripPassword
  split <;> rfl

theorem withoutPassword_no_password (fs : List (String × String)) :
    "password" ∉ (withoutPassword fs).map Prod.fst := by
  intro h
  simp only [withoutPassword, List.mem_map, List.mem_filter] at h
  obtain ⟨kv, ⟨hmem, hne⟩, hfst⟩ := h
  rw [hfst] at hne
  simp at hne

/-! ## Sample inputs used by witnesses -/

/-- A concrete, fully populated creation body. -/
def sampleBody : CreateBody :=
  { firstName := some "Ada", lastName := some "Lovelace",
    email := some "ada@mail.test", phone := some "555",
    password := some "pw123", role := none }

/-- The record persisted by a successful `createUser` on `sampleBody`. -/
def sampleSaved : User := preSave (createDoc sampleBody "u1" 42) true

/-- A concrete game owned by a user that is absent from the user store. -/
def sampleGame : Game :=
  { id := "g1", userId := some "ghost", number := 7, result := "gagné",
    pointsChange := 50, balanceAfter := 150, createdAt := 10 }

/-! ## Claim theorems -/

/-- C2: whenever the plaintext password field is set or changed on a save,
the pre-save hook replaces the stored password by the cost-12 bcrypt hash,
which is never equal to the submitted plaintext; when the field is
unchanged the document (hence the stored hash) is untouched; and the
record persisted by a successful createUser carries that hash, not the
plaintext. -/
theorem password_hashed_on_save (u : User) (b : CreateBody)
    (store s2 : List User) (newId : String) (now : Nat) (v : User) :
    ((preSave u true).password = bcryptHash 12 u.password ∧
      (preSave u true).password ≠ u.password ∧
      preSave u false = u) ∧
    (createUser b store newId now = (.created v, s2) →
      v.password = bcryptHash 12 ((b.password).getD "") ∧
      v.password ≠ (b.password).getD "") := by
  refine ⟨⟨rfl, ?_, rfl⟩, ?_⟩
  · exact bcryptHash_ne_plain u.password
  · intro h
    obtain ⟨-, -, -, hv, -⟩ := (createUser_created_iff b store newId now v s2).mp h
    subst hv
    exact ⟨rfl, bcryptHash_ne_plain _⟩

/-- Witness for C2 at a concrete creation. -/
theorem password_hashed_on_save_witness :
    sampleSaved.password = bcryptHash 12 "pw123" ∧
      sampleSaved.password ≠ "pw123" :=
  (password_hashed_on_save sampleSaved sampleBody [] [sampleSaved] "u1" 42
    sampleSaved).2 rfl

/-- C8: comparePassword succeeds exactly when the candidate, hashed with
the same algorithm, matches the stored hash; immediately after a
successful createUser with plaintext p the comparison with p succeeds and
the comparison with any other candidate fails. -/
theorem comparePassword_iff_hash (u : User) (c : String) (b : CreateBody)
    (store s2 : List User) (newId : String) (now : Nat) (v : User)
    (p : String) :
    (comparePassword u c = true ↔ bcryptHash 12 c = u.password) ∧
    (createUser b store newId now = (.created v, s2) → b.password = some p →
      comparePassword v p = true ∧
      ∀ c2 : String, c2 ≠ p → comparePassword v c2 = false) := by
  constructor
  · simp [comparePassword, bcryptCompare]
  · intro h hp
    obtain ⟨-, -, -, hv, -⟩ := (createUser_created_iff b store newId now v s2).mp h
    subst hv
    have hpw : (preSave (createDoc b newId now) true).password
        = bcryptHash 12 p := by
      simp [preSave, createDoc, hp]
    constructor
    · simp [comparePassword, bcryptCompare, hpw]
    · intro c2 hc2
      show (bcryptHash 12 c2 == (preSave (createDoc b newId now) true).password)
          = false
      rw [hpw]
      refine beq_eq_false_iff_ne.mpr ?_
      intro heq
      exact hc2 (bcryptHash_inj heq)

/-- Witness for C8 at a concrete creation: the submitted plaintext
verifies, a different candidate does not. -/
theorem comparePassword_iff_hash_witness :
    comparePassword sampleSaved "pw123" = true ∧
      comparePassword sampleSaved "pw124" = false := by
  have h := (comparePassword_iff_hash sampleSaved "x" sampleBody [] [sampleSaved]
    "u1" 42 sampleSaved "pw123").2 rfl rfl
  exact ⟨h.1, h.2 "pw124" (by decide)⟩

/-- C6 (counterexample): a body whose truthy role lies outside the schema
enumeration passes the handler checks (so no 400) but fails save-time
schema validation, and the handler answers 500 through its catch branch
with nothing persisted — not the 201-with-record the claim promises for
every non-400 input. -/
theorem createUser_invalid_role_cex :
    (createUser { sampleBody with role := some "x" } [] "u1" 0).1
        = .serverError ∧
      (createUser { sampleBody with role := some "x" } [] "u1" 0).1.statusCode
        = 500 ∧
      (createUser { sampleBody with role := some "x" } [] "u1" 0).1.statusCode
        ≠ 400 ∧
      (createUser { sampleBody with role := some "x" } [] "u1" 0).2 = [] := by
  refine ⟨rfl, rfl, ?_, rfl⟩
  decide

/-- C6 (amended): createUser answers a 400 client error exactly when a
required field among firstName, lastName, email, phone, password is
missing or empty, or a user with the submitted email already exists; in
either failure case the store is unchanged; the validation outcome
corresponds to the missing-field condition and the conflict outcome to
the duplicate email. Otherwise, when the effective role belongs to the
schema enumeration, it answers 201 and appends exactly the created
record; a role outside the enumeration makes the save fail, reported as
a 500 server error with nothing persisted. -/
theorem createUser_error_cases (b : CreateBody) (store : List User)
    (newId : String) (now : Nat) :
    ((createUser b store newId now).1.statusCode = 400 ↔
      (missingRequired b = true ∨
        store.any (fun v => v.email == (b.email).getD "") = true)) ∧
    ((createUser b store newId now).1 = .validationError ↔
      missingRequired b = true) ∧
    ((createUser b store newId now).1 = .conflictError ↔
      (missingRequired b = false ∧
        store.any (fun v => v.email == (b.email).getD "") = true)) ∧
    ((createUser b store newId now).1.statusCode = 400 →
      (createUser b store newId now).2 = store) ∧
    ((createUser b store newId now).1 = .serverError ↔
      (missingRequired b = false ∧
        store.any (fun v => v.email == (b.email).getD "") = false ∧
        validRole (createDoc b newId now).role = false)) ∧
    ((createUser b store newId now).1 = .serverError →
      (createUser b store newId now).2 = store) ∧
    (missingRequired b = false →
      store.any (fun v => v.email == (b.email).getD "") = false →
      validRole (createDoc b newId now).role = true →
      ∃ u2, (createUser b store newId now).1 = .created u2 ∧
        (createUser b store newId now).1.statusCode = 201 ∧
        (createUser b store newId now).2 = store ++ [u2]) := by
  rw [createUser_eq]
  by_cases hm : missingRequired b
  · simp [hm, CreateResult.statusCode]
  · by_cases hd : store.any (fun v => v.email == (b.email).getD "")
    · simp [hm, hd, CreateResult.statusCode]
    · by_cases hr : validRole (createDoc b newId now).role
      · simp [hm, hd, hr, CreateResult.statusCode]
      · simp [hm, hd, hr, CreateResult.statusCode]

/-- Witness for C6: a body with a missing password is rejected with 400
and the store is untouched; the sample body is accepted with 201. -/
theorem createUser_error_cases_witness :
    (createUser { sampleBody with password := none } [] "u1" 0).1.statusCode
        = 400 ∧
      (createUser { sampleBody with password := none } [] "u1" 0).2 = [] ∧
      (createUser sampleBody [] "u1" 42).1.statusCode = 201 := by
  refine ⟨?_, ?_, ?_⟩
  · exact (createUser_error_cases { sampleBody with password := none } [] "u1"
      0).1.mpr (Or.inl (by decide))
  · exact (createUser_error_cases { sampleBody with password := none } [] "u1"
      0).2.2.2.1 ((createUser_error_cases { sampleBody with password := none }
        [] "u1" 0).1.mpr (Or.inl (by decide)))
  · obtain ⟨u2, -, hc, -⟩ := (createUser_error_cases sampleBody [] "u1"
      42).2.2.2.2.2.2 (by decide) (by decide) (by decide)
    exact hc

/-- C3: when the acting user is present and its id equals the target id,
deleteUser answers the Forbidden-class 400 error and returns the store
unchanged, so the store delete is never invoked. -/
theorem deleteUser_self_forbidden (au : AuthUser) (id : String)
    (store : List User) (h : au.id = id) :
    deleteUser (some au) id store = (.selfDeleteForbidden, store) ∧
      (deleteUser (some au) id store).1.statusCode = 400 := by
  have hs : isSelfDelete (some au) id = true := by simp [isSelfDelete, h]
  rw [deleteUser_eq, if_pos hs]
  exact ⟨rfl, rfl⟩

/-- Witness for C3: a concrete self-delete is rejected with the store
intact. -/
theorem deleteUser_self_forbidden_witness :
    deleteUser (some ⟨"7", "admin"⟩) "7" [sampleSaved]
        = (.selfDeleteForbidden, [sampleSaved]) ∧
      (deleteUser (some ⟨"7", "admin"⟩) "7" [sampleSaved]).1.statusCode
        = 400 :=
  deleteUser_self_forbidden ⟨"7", "admin"⟩ "7" [sampleSaved] rfl

/-- C10: the Forbidden self-delete branch is taken exactly when an acting
identity is present on the request and its id equals the target id; when
the acting identity is absent the guard is skipped and the delete
proceeds to the store: not-found when the id does not resolve, deletion
otherwise. -/
theorem deleteUser_guard_iff (a : Option AuthUser) (id : String)
    (store : List User) :
    ((deleteUser a id store).1 = .selfDeleteForbidden ↔
      ∃ au, a = some au ∧ au.id = id) ∧
    (a = none → (deleteUser a id store).1 ≠ .selfDeleteForbidden) ∧
    (a = none → store.find? (fun u => u.id == id) = none →
      deleteUser a id store = (.notFound, store)) ∧
    (a = none → ∀ u, store.find? (fun w => w.id == id) = some u →
      deleteUser a id store = (.deleted, store.filter (fun v => v.id != id))) := by
  refine ⟨?_, ?_, ?_, ?_⟩
  · rw [← isSelfDelete_iff]
    constructor
    · intro h
      by_contra hs
      have hs2 : isSelfDelete a id = false := by simpa using hs
      rw [deleteUser_eq, hs2] at h
      simp only [Bool.false_eq_true, if_false] at h
      cases hfind : store.find? (fun u => u.id == id) <;>
        rw [hfind] at h <;> simp at h
    · intro h
      rw [deleteUser_eq, if_pos h]
  · intro ha
    subst ha
    have hs2 : isSelfDelete none id = false := rfl
    rw [deleteUser_eq, hs2]
    simp only [Bool.false_eq_true, if_false]
    cases hfind : store.find? (fun u => u.id == id) <;> simp
  · intro ha hfind
    subst ha
    rw [deleteUser_eq, hfind]
    rfl
  · intro ha u hfind
    subst ha
    rw [deleteUser_eq, hfind]
    rfl

/-- Witness for C10: with an absent acting identity the self-delete guard
is skipped and a present target is deleted. -/
theorem deleteUser_guard_iff_witness :
    (deleteUser (some ⟨"9", "admin"⟩) "9" []).1 = .selfDeleteForbidden ∧
      deleteUser none "u1" [sampleSaved] = (.deleted, []) := by
  constructor
  · exact (deleteUser_guard_iff (some ⟨"9", "admin"⟩) "9" []).1.mpr
      ⟨⟨"9", "admin"⟩, rfl, rfl⟩
  · have h := (deleteUser_guard_iff none "u1" [sampleSaved]).2.2.2 rfl
      sampleSaved (by rfl)
    simpa using h

/-- C5: the response payloads of ListUsers, CreateUser and UpdateUser
never contain the password field: the first and the third exclude it by
projection, the second deletes it from the created record. -/
theorem payloads_never_contain_password (store : List User)
    (fs : List (String × String)) (u : User) :
    (fs ∈ getAllUsers store → "password" ∉ fs.map Prod.fst) ∧
    "password" ∉ (createUserPayload u).map Prod.fst ∧
    "password" ∉ (updateUserPayload u).map Prod.fst := by
  refine ⟨?_, withoutPassword_no_password _, withoutPassword_no_password _⟩
  intro hfs
  simp only [getAllUsers, List.mem_map] at hfs
  obtain ⟨v, -, hv⟩ := hfs
  rw [← hv]
  exact withoutPassword_no_password _

/-- Witness for C5 on a concrete store element. -/
theorem payloads_never_contain_password_witness :
    "password" ∉ (withoutPassword (userToObject sampleSaved)).map Prod.fst :=
  (payloads_never_contain_password [sampleSaved]
    (withoutPassword (userToObject sampleSaved)) sampleSaved).1
    (by simp [getAllUsers])

/-- C7: every item returned by ListGames is the formatting of one stored
game; a null owning-user reference, and a reference to a user absent from
the store, both format to a null user field while the operation still
succeeds; a resolvable reference formats to the {id, firstName, lastName}
projection; and the remaining fields of an item depend only on its own
game. -/
theorem listGames_dangling_user_null (users : List User) (games : List Game)
    (pageQ limitQ : Option String) :
    (∀ d : GamesData, getAllGames pageQ limitQ games users = .ok d →
      ∀ fg ∈ d.games, ∃ g ∈ games, fg = formatGame users g) ∧
    (∀ g : Game, g.userId = none → (formatGame users g).user = none) ∧
    (∀ (g : Game) (uid : String), g.userId = some uid →
      users.find? (fun u => u.id == uid) = none →
      (formatGame users g).user = none) ∧
    (∀ (g : Game) (uid : String) (u : User), g.userId = some uid →
      users.find? (fun w => w.id == uid) = some u →
      (formatGame users g).user = some ⟨u.id, u.firstName, u.lastName⟩) ∧
    (∀ g : Game, (formatGame users g).number = g.number ∧
      (formatGame users g).result = g.result ∧
      (formatGame users g).pointsChange = g.pointsChange ∧
      (formatGame users g).newBalance = g.balanceAfter ∧
      (formatGame users g).createdAt = g.createdAt) := by
  refine ⟨?_, ?_, ?_, ?_, fun g => ⟨rfl, rfl, rfl, rfl, rfl⟩⟩
  · intro d hd fg hfg
    rw [getAllGames_eq] at hd
    by_cases hneg : (parseIntOr pageQ 1 - 1) * parseIntOr limitQ 10 < 0
    · rw [if_pos hneg] at hd
      simp at hd
    · rw [if_neg hneg] at hd
      cases hd
      simp only [List.mem_map] at hfg
      obtain ⟨g, hg, rfl⟩ := hfg
      refine ⟨g, ?_, rfl⟩
      have h1 : g ∈ sortGamesDesc games :=
        List.drop_subset _ _ (List.take_subset _ _ hg)
      exact (List.perm_insertionSort gameDescOrder games).subset h1
  · intro g h
    simp [formatGame, populateUser, h]
  · intro g uid h hfind
    simp [formatGame, populateUser, h, hfind]
  · intro g uid u h hfind
    simp [formatGame, populateUser, h, hfind]

/-- Witness for C7: a game whose owner is absent from the user store
formats with a null user field while a sibling game with a live owner
keeps its projection. -/
theorem listGames_dangling_user_null_witness :
    (formatGame [sampleSaved] sampleGame).user = none ∧
      (formatGame [sampleSaved] { sampleGame with userId := some "u1" }).user
        = some ⟨sampleSaved.id, sampleSaved.firstName, sampleSaved.lastName⟩ := by
  constructor
  · exact (listGames_dangling_user_null [sampleSaved] [sampleGame] none
      none).2.2.1 sampleGame "ghost" rfl (by rfl)
  · exact (listGames_dangling_user_null [sampleSaved] [sampleGame] none
      none).2.2.2.1 { sampleGame with userId := some "u1" } "u1" sampleSaved
      rfl (by rfl)

/-- C1 (failing input): an update body that does contain the password
field with the empty-string value is not stripped — the guard tests JS
truthiness, not presence — so the stored hash is overwritten by the empty
string and verification of the previously set plaintext no longer
succeeds, contradicting both the claim and the code comment that this
route does not modify the password. -/
theorem updateUser_empty_password_not_stripped :
    ({ UpdateBody.empty with password := some "" } : UpdateBody).password
        = some "" ∧
    comparePassword
      { id := "1", firstName := "A", lastName := "B", email := "a@b.test",
        phone := "p", password := bcryptHash 12 "secret", role := "user",
        points := 0, bio := none, createdAt := 0 } "secret" = true ∧
    (updateUser "1" { UpdateBody.empty with password := some "" }
      [{ id := "1", firstName := "A", lastName := "B", email := "a@b.test",
         phone := "p", password := bcryptHash 12 "secret", role := "user",
         points := 0, bio := none, createdAt := 0 }]).2.map User.password
      = [""] ∧
    (updateUser "1" { UpdateBody.empty with password := some "" }
      [{ id := "1", firstName := "A", lastName := "B", email := "a@b.test",
         phone := "p", password := bcryptHash 12 "secret", role := "user",
         points := 0, bio := none, createdAt := 0 }]).2.map
        (fun u => comparePassword u "secret") = [false] := by
  refine ⟨rfl, ?_, rfl, ?_⟩ <;> decide

/-- C9 (counterexample): an update body containing a createdAt field does
change the stored creation timestamp — the schema sets createdAt by
default once but nothing marks it immutable on the update path. -/
theorem updateUser_createdAt_mutable_cex :
    ([{ id := "1", firstName := "A", lastName := "B", email := "a@b.test",
        phone := "p", password := "h", role := "user", points := 0,
        bio := none, createdAt := 5 }] : List User).map User.createdAt
      = [5] ∧
    (updateUser "1" { UpdateBody.empty with createdAt := some 999 }
      [{ id := "1", firstName := "A", lastName := "B", email := "a@b.test",
         phone := "p", password := "h", role := "user", points := 0,
         bio := none, createdAt := 5 }]).2.map User.createdAt = [999] := by
  exact ⟨rfl, rfl⟩

/-- C9 (amended): over a store whose ids are distinct, every stored
creation timestamp is unchanged by updateUser whenever the update body
itself contains no createdAt field. -/
theorem updateUser_preserves_createdAt (id : String) (b : UpdateBody)
    (store : List User) (hb : b.createdAt = none)
    (hnd : (store.map User.id).Nodup) :
    ((updateUser id b store).2).map User.createdAt
      = store.map User.createdAt := by
  unfold updateUser
  cases hfind : store.find? (fun u => u.id == id) with
  | none => rfl
  | some u =>
    simp only [List.map_map]
    apply List.map_congr_left
    intro v hv
    by_cases hvid : (v.id == id) = true
    · have hu_mem := List.mem_of_find?_eq_some hfind
      have hu_p := List.find?_some hfind
      simp only [beq_iff_eq] at hu_p
      have hveq : v = u := by
        apply List.inj_on_of_nodup_map hnd hv hu_mem
        rw [beq_iff_eq] at hvid
        rw [hvid, hu_p]
      subst hveq
      show ((if (v.id == id) = true
          then applySet (stripPassword b) v else v) : User).createdAt
        = v.createdAt
      rw [if_pos hvid]
      show ((stripPassword b).createdAt).getD v.createdAt = v.createdAt
      rw [stripPassword_createdAt, hb]
      rfl
    · show ((if (v.id == id) = true
          then applySet (stripPassword b) u else v) : User).createdAt
        = v.createdAt
      rw [if_neg hvid]

/-- Witness for C9 (amended) at a concrete store and body. -/
theorem updateUser_preserves_createdAt_witness :
    ((updateUser "u1" { UpdateBody.empty with firstName := some "Grace" }
      [sampleSaved]).2).map User.createdAt = [sampleSaved].map User.createdAt :=
  updateUser_preserves_createdAt "u1"
    { UpdateBody.empty with firstName := some "Grace" } [sampleSaved] rfl
    (by simp)

/-- C4 (counterexample): with page parsed as -5 the computed offset is
negative, the store rejects the query and the handler answers through its
500 catch branch even on an empty store — so ListGames is not error-free
for every input, contradicting the claim. -/
theorem getAllGames_negative_page_cex :
    getAllGames (some "-5") none [] [] = .serverError ∧
      parseIntJS "-5" = some (-5) :=
  ⟨rfl, rfl⟩

/-- C4 (amended): page defaults to 1 and limit to 10 when the query
parameter is absent or non-numeric. When the computed offset
(page - 1) * limit is nonnegative, the request succeeds with the window
of at most |limit| games at that offset into the games sorted by
creation timestamp descending (the sort being a descending-sorted
permutation of the store) and pagination metadata carrying the total
game count, the page, the ceiling of total over limit, and the limit —
in particular an empty store then yields an empty list with total 0 and
pages 0. A negative offset (reachable only through a negative parsed
page or limit) is rejected by the store and surfaces as a 500 server
error. -/
theorem getAllGames_pagination_spec (pageQ limitQ : Option String)
    (games : List Game) (users : List User) :
    ∀ page limit : Int,
      page = parseIntOr pageQ 1 → limit = parseIntOr limitQ 10 →
      (pageQ.bind parseIntJS = none → page = 1) ∧
      (limitQ.bind parseIntJS = none → limit = 10) ∧
      ((page - 1) * limit < 0 →
        getAllGames pageQ limitQ games users = .serverError) ∧
      (0 ≤ (page - 1) * limit →
        getAllGames pageQ limitQ games users = .ok
          { games := (((sortGamesDesc games).drop
                ((page - 1) * limit).toNat).take limit.natAbs).map
                  (formatGame users)
            pagination :=
              { total := (games.length : Int), page := page,
                pages := ceilDiv (games.length : Int) limit,
                limit := limit } }) ∧
      List.Sorted gameDescOrder (sortGamesDesc games) ∧
      (sortGamesDesc games).Perm games ∧
      (0 < limit →
        limit * (ceilDiv (games.length : Int) limit - 1)
            < (games.length : Int) ∧
          (games.length : Int) ≤ limit * ceilDiv (games.length : Int) limit) ∧
      (games = [] → 0 ≤ (page - 1) * limit →
        getAllGames pageQ limitQ games users = .ok
          { games := [], pagination :=
            { total := 0, page := page, pages := 0, limit := limit } }) := by
  intro page limit hp hl
  subst hp
  subst hl
  refine ⟨fun h => by simp [parseIntOr, h], fun h => by simp [parseIntOr, h],
    ?_, ?_, List.sorted_insertionSort gameDescOrder games,
    List.perm_insertionSort gameDescOrder games,
    fun hlim => ceilDiv_bounds (games.length : Int) hlim, ?_⟩
  · intro hneg
    rw [getAllGames_eq, if_pos hneg]
  · intro hge
    rw [getAllGames_eq, if_neg (not_lt.mpr hge)]
  · intro h hge
    subst h
    rw [getAllGames_eq, if_neg (not_lt.mpr hge)]
    simp [sortGamesDesc_nil, ceilDiv_zero_left]

/-- Witness for C4: a non-numeric page and an absent limit fall back to
the defaults, and the empty store yields the empty success payload. -/
theorem getAllGames_pagination_spec_witness :
    parseIntOr (some "abc") 1 = 1 ∧ parseIntOr none 10 = 10 ∧
      getAllGames (some "abc") none [] [] = .ok
        { games := [], pagination :=
          { total := 0, page := 1, pages := 0, limit := 10 } } := by
  have h := getAllGames_pagination_spec (some "abc") none [] []
    (parseIntOr (some "abc") 1) (parseIntOr none 10) rfl rfl
  exact ⟨h.1 rfl, h.2.1 rfl, h.2.2.2.2.2.2.2 rfl (by decide)⟩

end TrueNumber
